import Mathlib

/-!
Verification of the easybuild toolchain core
(`easybuild/tools/toolchain/toolchain.py`).

The Python code is shallowly embedded: dependency descriptors (Python
dicts) become a record, the external `Modules` registry and software-root
lookup become a record of query functions, exceptions raised via
`log.raiseException` become `Except.error`, and the observable actions of
`prepare` (module loads, consistency reports, variable generation,
environment writes) become an explicit event trace.
-/

/-- `Toolchain.DUMMY_NAME`: the official dummy toolchain name. -/
def DUMMY_NAME : String := "dummy"

/-- `Toolchain.DUMMY_VERSION`: if name and version are both dummy,
dependencies are not loaded. -/
def DUMMY_VERSION : String := "dummy"

/-- A dependency descriptor (a Python dict in the source).
`version`, `tc` model optional dict keys; for `tc` the stored value can
itself be Python `None` (hence `Option (Option String)`: `none` = key
absent, `some none` = key present holding `None`).  `suffix` models
`dependency.get("suffix", "")`.  `dummy` models the presence of a truthy
`DUMMY_NAME` key (toolchain-independent marker) and `tk` the presence of
the legacy `tk` key. -/
structure Dependency where
  name : String
  version : Option String := none
  suffix : String := ""
  dummy : Bool := false
  tc : Option (Option String) := none
  tk : Bool := false
deriving DecidableEq, Repr

/-- The external collaborators of the toolchain layer: the module backend
(`Modules()`) and the software-root lookup from
`easybuild.tools.modules`.  `existsMod n v` models `Modules().exists(n, v)`
(`v` may be Python `None`, see `Dependency.tc`); `available n s` models
`Modules().available(n, s)`, an ordered list of matches, each match a
tuple of strings; `depsFor n v` models the names reported by
`Modules().dependencies_for(n, v, depth=0)`; `rootFor n` models
`get_software_root(n)` (absent root gives `none`). -/
structure ModuleBackend where
  existsMod : String → Option String → Bool
  available : String → String → List (List String)
  depsFor : String → String → List String
  rootFor : String → Option String

/-- `Toolchain.get_dependency_version`: generate a version string for a
dependency on a module using this toolchain.  Faithful to the source,
including the `matches`-nonempty branch, whose bare `return` statement
discards the computed `version = matches[-1][-1]` and yields Python
`None` (embedded as `Except.ok none`). -/
def get_dependency_version (tcname tcversion : String) (B : ModuleBackend)
    (dep : Dependency) : Except String (Option String) :=
  let toolchain :=
    if tcname ≠ DUMMY_NAME then "-" ++ tcname ++ "-" ++ tcversion
    else if tcversion ≠ DUMMY_VERSION then tcversion
    else ""
  let toolchain := if dep.dummy then "" else toolchain
  match dep.version with
  | some v => Except.ok (some (v ++ toolchain ++ dep.suffix))
  | none =>
    let avail := B.available dep.name (toolchain ++ dep.suffix)
    if avail.length > 0 then
      Except.ok none
    else
      Except.error ("get_dependency_version: No toolchain version for dependency name "
        ++ dep.name ++ " (suffix " ++ toolchain ++ dep.suffix ++ ") found")

/-- One iteration of the `add_dependencies` loop body: reject the legacy
`tk` key, fill in `tc` via `get_dependency_version` when the key is
absent, then confirm existence of `(name, tc)` in the module backend. -/
def validate_dep (tcname tcversion : String) (B : ModuleBackend)
    (dep : Dependency) : Except String Dependency :=
  if dep.tk then
    Except.error "add_dependencies: legacy tk found in dep"
  else
    match (match dep.tc with
           | some v => Except.ok v
           | none => get_dependency_version tcname tcversion B dep) with
    | Except.error e => Except.error e
    | Except.ok v =>
      if B.existsMod dep.name v then
        Except.ok { dep with tc := some v }
      else
        Except.error ("add_dependencies: no module found for dependency " ++ dep.name)

/-- `Toolchain.add_dependencies`: verify that the given dependencies
exist and append them to `self.dependencies` (the `state` accumulator).
Returns the final dependency list together with the raised exception, if
any: an exception aborts the loop, leaving earlier appends in place. -/
def add_dependencies (tcname tcversion : String) (B : ModuleBackend)
    (state : List Dependency) : List Dependency → List Dependency × Option String
  | [] => (state, none)
  | dep :: rest =>
    match validate_dep tcname tcversion B dep with
    | Except.error e => (state, some e)
    | Except.ok dep2 => add_dependencies tcname tcversion B (state ++ [dep2]) rest

/-- Observable actions of `prepare`: backend `load()` calls (with the
module set added beforehand), the consistency-check log record, the
`set_variables` hook, `generate_vars`, and each `setvar` environment
write.  `loadDeps` is the dummy-name path (dependency modules only);
`loadToolchainAndDeps` is the regular path (toolchain module first). -/
inductive Ev
  | loadDeps (deps : List Dependency)
  | loadToolchainAndDeps (name version : String) (deps : List Dependency)
  | consistencyMatch (actual declared : List String)
  | consistencyMismatch (actual declared : List String)
  | setVariablesHook
  | generateVars (vs : List (String × String))
  | setenv (key val : String)
deriving DecidableEq, Repr

/-- The `onlymod` argument of `prepare`, also passed on to
`_setenv_variables` as `donotset`: Python `None`, a boolean, a legacy
comma-separated string, or a list of variable names to skip. -/
inductive OnlyMod
  | none
  | bool (b : Bool)
  | str (s : String)
  | list (l : List String)
deriving DecidableEq, Repr

/-- The toolchain state the embedded methods read and write: identity,
registered dependencies, the variable store (`self.variables`, a list of
variable name / fragment-list pairs), the generated flat mapping
(`self.vars`, `none` until `generate_vars` runs), the option flags the
core queries, the `*_MODULE_NAME` element names gathered by reflection
in `prepare` (flattened), and the `is_required` policy method. -/
structure Toolchain where
  name : String
  version : String
  dependencies : List Dependency := []
  variablesStore : List (String × List String) := []
  vars : Option (List (String × String)) := Option.none
  opt32bit : Bool := false
  packedLinkerOptions : Bool := false
  elems : List String := []
  is_required : String → Bool := fun _ => true

/-- `Toolchain._toolchain_exists` (no-argument call, as in `prepare`):
the dummy toolchain always exists, otherwise ask the module backend. -/
def toolchain_exists (tc : Toolchain) (B : ModuleBackend) : Bool :=
  if tc.name = DUMMY_NAME then true
  else B.existsMod tc.name (some tc.version)

/-- The `cpp_paths` list of `_add_dependency_variables`: `["include"]`
plus the caller-supplied extras not already present, in order. -/
def cpp_paths (cpp : Option (List String)) : List String :=
  let base := ["include"]
  match cpp with
  | Option.none => base
  | some ps => ps.foldl (fun acc p => if p ∈ acc then acc else acc ++ [p]) base

/-- The `ld_paths` list of `_add_dependency_variables`: `["lib"]`, with
`"lib64"` inserted in front unless the `32bit` option is set, plus the
caller-supplied extras not already present, in order. -/
def ld_paths (opt32bit : Bool) (ld : Option (List String)) : List String :=
  let base := if opt32bit then ["lib"] else ["lib64", "lib"]
  match ld with
  | Option.none => base
  | some ps => ps.foldl (fun acc p => if p ∈ acc then acc else acc ++ [p]) base

/-- `Toolchain.get_software_root` on a list of names: collect
`get_software_root(name)` for each, raising at the first name whose root
is not found in the environment. -/
def get_software_root_list (B : ModuleBackend) :
    List String → Except String (List String)
  | [] => Except.ok []
  | n :: rest =>
    match B.rootFor n with
    | Option.none =>
      Except.error ("get_software_root software root for " ++ n
        ++ " was not found in environment")
    | some r => (get_software_root_list B rest).map (fun rs => r :: rs)

/-- Modelled from the spec: `ToolchainVariables.append_subdirs` (the
external VariableStore, not under the embedded file) appends one
fragment per subdirectory under the given root to the named variable,
keeping insertion order and never duplicating an existing fragment. -/
def store_append (store : List (String × List String)) (key : String)
    (frags : List String) : List (String × List String) :=
  match store with
  | [] => [(key, frags)]
  | (k, v) :: rest =>
    if k = key then (k, v ++ frags.filter (fun f => ¬ f ∈ v)) :: rest
    else (k, v) :: store_append rest key frags

/-- `Toolchain._add_dependency_variables`: add `CPPFLAGS`/`LDFLAGS`
fragments for every dependency root.  A falsy `names` argument (Python
`None` or the empty list) means all registered dependencies.  The root
list is collected before any append, so a missing root raises with the
store untouched. -/
def add_dependency_variables (tc : Toolchain) (B : ModuleBackend)
    (names : Option (List String)) (cpp ld : Option (List String)) :
    Except String Toolchain :=
  let cpps := cpp_paths cpp
  let lds := ld_paths tc.opt32bit ld
  let depnames :=
    match names with
    | Option.none => tc.dependencies.map Dependency.name
    | some ns => if ns = [] then tc.dependencies.map Dependency.name else ns
  match get_software_root_list B depnames with
  | Except.error e => Except.error e
  | Except.ok roots =>
    Except.ok { tc with
      variablesStore := roots.foldl (fun st root =>
        store_append
          (store_append st "CPPFLAGS" (cpps.map (fun s => root ++ "/" ++ s)))
          "LDFLAGS" (lds.map (fun s => root ++ "/" ++ s))) tc.variablesStore }

/-- Modelled from the spec: stringification of one accumulated variable
value (the flatten-to-string operation of the external VariableStore). -/
def flatten_val (frags : List String) : String :=
  String.intercalate " " frags

/-- `Toolchain.generate_vars`: convert the variables into simple string
vars, stored in `self.vars`. -/
def generate_vars (tc : Toolchain) : Toolchain :=
  { tc with vars := some (tc.variablesStore.map (fun kv => (kv.1, flatten_val kv.2))) }

/-- The two `setvar` calls of one `_setenv_variables` loop iteration:
nothing for a skipped key, otherwise the canonical variable followed by
its `EBVAR`-prefixed alias, both holding the same value. -/
def setenv_one (skip : List String) (kv : String × String) : List Ev :=
  if kv.1 ∈ skip then []
  else [Ev.setenv kv.1 kv.2, Ev.setenv ("EBVAR" ++ kv.1) kv.2]

/-- The `setvar` calls of the `_setenv_variables` loop over all
generated vars, in order. -/
def setenv_loop (skip : List String) : List (String × String) → List Ev
  | [] => []
  | kv :: rest => setenv_one skip kv ++ setenv_loop skip rest

/-- `Toolchain._setenv_variables`: reject the legacy comma-separated
string form of `donotset`, take a list as the skip list (anything else,
Python `None` or a boolean, gives the empty skip list), then emit the
environment writes. -/
def setenv_variables (vars : List (String × String)) (donotset : OnlyMod) :
    Except String (List Ev) :=
  match donotset with
  | OnlyMod.str _ =>
    Except.error "_setenv_variables: using commas-separated list. should be deprecated."
  | OnlyMod.list l => Except.ok (setenv_loop l vars)
  | _ => Except.ok (setenv_loop [] vars)

/-- Membership-wise equality of the two Python sets compared in
`prepare` (built with `set(...)`, so duplicates and order are
immaterial). -/
def same_set (a b : List String) : Bool :=
  a.all (fun x => b.contains x) && b.all (fun x => a.contains x)

/-- The declared-element set of `prepare` after its two filters: the
flattened `*_MODULE_NAME` values minus the name of the toolchain itself, and
minus any optional element absent from the backend-reported set. -/
def filtered_elems (tc : Toolchain) (actual : List String) : List String :=
  (tc.elems.filter (fun x => ¬ x = tc.name)).filter
    (fun m => tc.is_required m || actual.contains m)

/-- `Toolchain.prepare`: the full preparation sequence.  Returns the
final toolchain state, the event trace up to completion or the point of
failure, and the raised exception if any.  Follows the source: existence
check, dummy fast paths, toolchain+dependency load, consistency check
(logged, never raised), `set_variables` hook, then either
`generate_vars` alone (`onlymod == True`) or flag assembly,
`generate_vars` and `_setenv_variables`. -/
def prepare (tc : Toolchain) (B : ModuleBackend) (onlymod : OnlyMod) :
    Toolchain × List Ev × Option String :=
  if ¬ toolchain_exists tc B then
    (tc, [], some ("No module found for toolchain name " ++ tc.name
      ++ " (" ++ tc.version ++ ")"))
  else if tc.name = DUMMY_NAME then
    if tc.version = DUMMY_VERSION then
      (tc, [], Option.none)
    else
      (tc, [Ev.loadDeps tc.dependencies], Option.none)
  else
    let ev1 := Ev.loadToolchainAndDeps tc.name tc.version tc.dependencies
    let actual := B.depsFor tc.name tc.version
    let declared := filtered_elems tc actual
    let consEv := if same_set actual declared then Ev.consistencyMatch actual declared
                  else Ev.consistencyMismatch actual declared
    let evs := [ev1, consEv, Ev.setVariablesHook]
    if onlymod = OnlyMod.bool true then
      let tc1 := generate_vars tc
      (tc1, evs ++ [Ev.generateVars (tc1.vars.getD [])], Option.none)
    else
      match add_dependency_variables tc B Option.none Option.none Option.none with
      | Except.error e => (tc, evs, some e)
      | Except.ok tc1 =>
        let tc2 := generate_vars tc1
        let vs := tc2.vars.getD []
        match setenv_variables vs onlymod with
        | Except.error e => (tc2, evs ++ [Ev.generateVars vs], some e)
        | Except.ok senv => (tc2, evs ++ [Ev.generateVars vs] ++ senv, Option.none)

/-- The variable set a `prepare` run yields: the generated mapping, or
the empty mapping when `generate_vars` never ran (`vars` still `None`). -/
def yielded_vars (tc : Toolchain) : List (String × String) :=
  tc.vars.getD []

/-- A concrete module backend for test scenarios: one available module,
OpenMPI 1.6 built with GCC 4.7, rooted at /opt/OpenMPI. -/
def demoBackend : ModuleBackend :=
  { existsMod := fun n v => decide (n = "OpenMPI" ∧ v = some "1.6-GCC-4.7")
  , available := fun n s =>
      if n = "OpenMPI" ∧ s = "-GCC-4.7" then [["OpenMPI", "1.6-GCC-4.7"]] else []
  , depsFor := fun _ _ => []
  , rootFor := fun n => if n = "OpenMPI" then some "/opt/OpenMPI" else Option.none }

/-- A concrete module backend holding only the GCC 4.7 toolchain module,
which reports no dependencies of its own. -/
def gccBackend : ModuleBackend :=
  { existsMod := fun n v => decide (n = "GCC" ∧ v = some "4.7")
  , available := fun _ _ => []
  , depsFor := fun _ _ => []
  , rootFor := fun _ => Option.none }

/-- The dummy toolchain with dummy version. -/
def dummyToolchain : Toolchain := { name := "dummy", version := "dummy" }

/-- A dummy-named toolchain with a non-dummy version. -/
def dummyVersionedToolchain : Toolchain := { name := "dummy", version := "1.0" }

/-- A GCC 4.7 toolchain that declares OpenMPI among its
`*_MODULE_NAME` elements. -/
def gccToolchain : Toolchain := { name := "GCC", version := "4.7", elems := ["OpenMPI"] }

/-- A version-pinned OpenMPI dependency descriptor. -/
def openmpiDep : Dependency := { name := "OpenMPI", version := some "1.6" }

/-- The OpenMPI descriptor after validation: `tc` filled in. -/
def openmpiResolved : Dependency :=
  { name := "OpenMPI", version := some "1.6", tc := some (some "1.6-GCC-4.7") }

/-- A descriptor still carrying the forbidden legacy `tk` key. -/
def legacyDep : Dependency := { name := "legacy", tk := true }

lemma validate_dep_ok_fields {tcname tcversion : String} {B : ModuleBackend}
    {dep dep2 : Dependency} (h : validate_dep tcname tcversion B dep = Except.ok dep2) :
    ∃ v, dep2.tc = some v ∧ B.existsMod dep2.name v = true := by
  unfold validate_dep at h
  split at h
  · exact absurd h (by simp)
  · split at h
    · exact absurd h (by simp)
    · split at h
      · rename_i v hv hex
        refine ⟨v, ?_, ?_⟩
        · injection h with h2
          rw [← h2]
        · injection h with h2
          rw [← h2]
          exact hex
      · exact absurd h (by simp)

lemma add_dependencies_ok_forall₂ {tcname tcversion : String} {B : ModuleBackend}
    {l : List Dependency} :
    ∀ {state result : List Dependency},
      add_dependencies tcname tcversion B state l = (result, Option.none) →
      ∃ procd, result = state ++ procd ∧
        List.Forall₂ (fun d d2 => validate_dep tcname tcversion B d = Except.ok d2) l procd := by
  induction l with
  | nil =>
    intro state result h
    unfold add_dependencies at h
    injection h with h1 _
    exact ⟨[], by simp [h1], List.Forall₂.nil⟩
  | cons dep rest ih =>
    intro state result h
    unfold add_dependencies at h
    split at h
    · exact absurd h (by simp)
    · rename_i dep2 hval
      obtain ⟨procd, hres, hfa⟩ := ih h
      exact ⟨dep2 :: procd, by simp [hres], List.Forall₂.cons hval hfa⟩

lemma mem_foldl_dedup_append (x : String) (ps : List String) :
    ∀ acc : List String, x ∈ acc →
      x ∈ ps.foldl (fun acc p => if p ∈ acc then acc else acc ++ [p]) acc := by
  induction ps with
  | nil => intro acc hx; exact hx
  | cons p ps ih =>
    intro acc hx
    simp only [List.foldl]
    split
    · exact ih acc hx
    · exact ih (acc ++ [p]) (List.mem_append_left _ hx)

/-- C1: with no explicit version, `get_dependency_version` queries the
backend for available modules; on a NON-EMPTY match list the bare
`return` in the source discards the selected identifier and the call
yields Python `None` — never the last match entry, contradicting the
spec (and the debug message of the function itself, which announces it
is returning the selected version). -/
theorem get_dependency_version_drops_matched_version :
    (demoBackend.available "OpenMPI" "-GCC-4.7").length > 0 ∧
    get_dependency_version "GCC" "4.7" demoBackend { name := "OpenMPI" } =
      Except.ok Option.none ∧
    ∀ s : String,
      get_dependency_version "GCC" "4.7" demoBackend { name := "OpenMPI" } ≠
        Except.ok (some s) := by
  refine ⟨by decide, rfl, ?_⟩
  intro s h
  rw [show get_dependency_version "GCC" "4.7" demoBackend { name := "OpenMPI" } =
      Except.ok Option.none from rfl] at h
  simp at h

/-- C2: for the dummy toolchain with dummy version, `prepare` performs
no backend load call (the event trace is empty) and yields an empty
variable set. -/
theorem prepare_dummy_dummy_no_loads (tc : Toolchain) (B : ModuleBackend) (m : OnlyMod)
    (h1 : tc.name = DUMMY_NAME) (h2 : tc.version = DUMMY_VERSION)
    (h3 : tc.vars = Option.none) :
    prepare tc B m = (tc, [], Option.none) ∧
    yielded_vars (prepare tc B m).1 = [] := by
  have hp : prepare tc B m = (tc, [], Option.none) := by
    simp [prepare, toolchain_exists, h1, h2]
  exact ⟨hp, by rw [hp]; simp [yielded_vars, h3]⟩

/-- Witness for C2 at the concrete dummy/dummy toolchain. -/
theorem prepare_dummy_dummy_no_loads_witness :
    prepare dummyToolchain demoBackend OnlyMod.none = (dummyToolchain, [], Option.none) ∧
    yielded_vars (prepare dummyToolchain demoBackend OnlyMod.none).1 = [] :=
  prepare_dummy_dummy_no_loads dummyToolchain demoBackend OnlyMod.none rfl rfl rfl

/-- C3: whenever `add_dependencies` returns without raising, the final
list extends the prior state by exactly the validated images of the
input dependencies, in input order (`Forall₂` pairs them positionally),
and every appended dependency has its `tc` key populated and confirmed
to exist in the module backend. -/
theorem add_dependencies_appends_validated_in_order
    (tcname tcversion : String) (B : ModuleBackend)
    (state l result : List Dependency)
    (h : add_dependencies tcname tcversion B state l = (result, Option.none)) :
    ∃ procd, result = state ++ procd ∧
      List.Forall₂ (fun d d2 => validate_dep tcname tcversion B d = Except.ok d2) l procd ∧
      ∀ d2 ∈ procd, ∃ v, d2.tc = some v ∧ B.existsMod d2.name v = true := by
  obtain ⟨procd, hres, hfa⟩ := add_dependencies_ok_forall₂ h
  refine ⟨procd, hres, hfa, ?_⟩
  clear hres h
  induction hfa with
  | nil => intro d2 hd2; cases hd2
  | cons hR _ ih =>
    intro d2 hd2
    rcases List.mem_cons.mp hd2 with heq | hmem
    · subst heq; exact validate_dep_ok_fields hR
    · exact ih d2 hmem

/-- Witness for C3: one version-pinned OpenMPI dependency added to an
empty list under GCC 4.7. -/
theorem add_dependencies_appends_validated_in_order_witness :
    ∃ procd, [openmpiResolved] = [] ++ procd ∧
      List.Forall₂ (fun d d2 => validate_dep "GCC" "4.7" demoBackend d = Except.ok d2)
        [openmpiDep] procd ∧
      ∀ d2 ∈ procd, ∃ v, d2.tc = some v ∧ demoBackend.existsMod d2.name v = true :=
  add_dependencies_appends_validated_in_order "GCC" "4.7" demoBackend
    [] [openmpiDep] [openmpiResolved] (by decide)

/-- C4: under toolchain GCC 4.7, the dependency OpenMPI pinned at 1.6
(no `tc`, no suffix, not toolchain-independent) resolves to exactly
`1.6-GCC-4.7`, for any module backend. -/
theorem get_dependency_version_gcc_openmpi (B : ModuleBackend) :
    get_dependency_version "GCC" "4.7" B openmpiDep =
      Except.ok (some "1.6-GCC-4.7") :=
  rfl

/-- C5: when the backend-reported direct dependency names differ (as
sets) from the filtered declared element names, `prepare` on a
non-dummy toolchain records a `consistencyMismatch` event but does not
abort: the run ends without an exception, and the trace continues with
the `set_variables` hook, variable generation and the environment
writes. -/
theorem prepare_mismatch_reported_not_fatal
    (tc tc1 : Toolchain) (B : ModuleBackend)
    (h1 : ¬ tc.name = DUMMY_NAME)
    (h2 : B.existsMod tc.name (some tc.version) = true)
    (h3 : same_set (B.depsFor tc.name tc.version)
            (filtered_elems tc (B.depsFor tc.name tc.version)) = false)
    (h4 : add_dependency_variables tc B Option.none Option.none Option.none =
            Except.ok tc1) :
    prepare tc B OnlyMod.none =
      (generate_vars tc1,
       [Ev.loadToolchainAndDeps tc.name tc.version tc.dependencies,
        Ev.consistencyMismatch (B.depsFor tc.name tc.version)
          (filtered_elems tc (B.depsFor tc.name tc.version)),
        Ev.setVariablesHook,
        Ev.generateVars (yielded_vars (generate_vars tc1))] ++
        setenv_loop [] (yielded_vars (generate_vars tc1)),
       Option.none) := by
  simp [prepare, toolchain_exists, h1, h2, h3, h4, setenv_variables, yielded_vars]

/-- Witness for C5: GCC 4.7 declares OpenMPI as an element but the
loaded toolchain module reports no dependencies, so the sets mismatch;
preparation still completes without an exception. -/
theorem prepare_mismatch_reported_not_fatal_witness :
    prepare gccToolchain gccBackend OnlyMod.none =
      (generate_vars gccToolchain,
       [Ev.loadToolchainAndDeps gccToolchain.name gccToolchain.version
          gccToolchain.dependencies,
        Ev.consistencyMismatch (gccBackend.depsFor gccToolchain.name gccToolchain.version)
          (filtered_elems gccToolchain
            (gccBackend.depsFor gccToolchain.name gccToolchain.version)),
        Ev.setVariablesHook,
        Ev.generateVars (yielded_vars (generate_vars gccToolchain))] ++
        setenv_loop [] (yielded_vars (generate_vars gccToolchain)),
       Option.none) :=
  prepare_mismatch_reported_not_fatal gccToolchain gccToolchain gccBackend
    (by decide) (by decide) (by decide) rfl

/-- C6: in `_add_dependency_variables` the include list defaults to
`["include"]`; the library list is `["lib64", "lib"]` with the 32bit
option unset and exactly `["lib"]` with it set, so toggling the option
removes `lib64`, while `lib` is a member of the library list for every
option value and every caller-supplied extra list. -/
theorem dependency_subdir_lists :
    cpp_paths Option.none = ["include"] ∧
    ld_paths false Option.none = ["lib64", "lib"] ∧
    ld_paths true Option.none = ["lib"] ∧
    ¬ "lib64" ∈ ld_paths true Option.none ∧
    ∀ (b : Bool) (ld : Option (List String)), "lib" ∈ ld_paths b ld := by
  refine ⟨rfl, rfl, rfl, by decide, ?_⟩
  intro b ld
  cases ld with
  | none => cases b <;> simp [ld_paths]
  | some ps =>
    have hbase : "lib" ∈ (if b then ["lib"] else ["lib64", "lib"]) := by
      cases b <;> simp
    simpa only [ld_paths] using mem_foldl_dedup_append "lib" ps _ hbase

/-- C7: `_setenv_variables` with a list skip argument emits, for each
generated variable, either nothing (key in the skip list) or exactly
the canonical write followed by the `EBVAR`-prefixed alias write with
the identical value (key not in the skip list) — never one without the
other. -/
theorem setenv_variables_both_or_neither
    (vars : List (String × String)) (skip : List String)
    (kv : String × String) (_hkv : kv ∈ vars) :
    setenv_variables vars (OnlyMod.list skip) = Except.ok (setenv_loop skip vars) ∧
    ((kv.1 ∈ skip ∧ setenv_one skip kv = []) ∨
     (¬ kv.1 ∈ skip ∧ setenv_one skip kv =
        [Ev.setenv kv.1 kv.2, Ev.setenv ("EBVAR" ++ kv.1) kv.2])) := by
  refine ⟨rfl, ?_⟩
  by_cases hk : kv.1 ∈ skip
  · exact Or.inl ⟨hk, by simp [setenv_one, hk]⟩
  · exact Or.inr ⟨hk, by simp [setenv_one, hk]⟩

/-- Witness for C7: two variables, one of them skipped. -/
theorem setenv_variables_both_or_neither_witness :
    setenv_variables [("CFLAGS", "-O2"), ("X", "1")] (OnlyMod.list ["X"]) =
      Except.ok (setenv_loop ["X"] [("CFLAGS", "-O2"), ("X", "1")]) ∧
    ((("CFLAGS", "-O2").1 ∈ ["X"] ∧ setenv_one ["X"] ("CFLAGS", "-O2") = []) ∨
     (¬ ("CFLAGS", "-O2").1 ∈ ["X"] ∧ setenv_one ["X"] ("CFLAGS", "-O2") =
        [Ev.setenv ("CFLAGS", "-O2").1 ("CFLAGS", "-O2").2,
         Ev.setenv ("EBVAR" ++ ("CFLAGS", "-O2").1) ("CFLAGS", "-O2").2])) :=
  setenv_variables_both_or_neither [("CFLAGS", "-O2"), ("X", "1")] ["X"]
    ("CFLAGS", "-O2") (by decide)

/-- C8: for a dependency with an explicit version,
`get_dependency_version` is pure: its result is the same for any two
module backends (no backend query contributes), so identical dependency
fields and toolchain identity always yield the identical identifier. -/
theorem get_dependency_version_explicit_version_pure
    (tcname tcversion : String) (B1 B2 : ModuleBackend) (dep : Dependency)
    (h : dep.version.isSome = true) :
    get_dependency_version tcname tcversion B1 dep =
      get_dependency_version tcname tcversion B2 dep := by
  obtain ⟨v, hv⟩ := Option.isSome_iff_exists.mp h
  simp [get_dependency_version, hv]

/-- Witness for C8: the pinned OpenMPI dependency resolves identically
under the demo backend and the (entirely different) GCC backend. -/
theorem get_dependency_version_explicit_version_pure_witness :
    get_dependency_version "GCC" "4.7" demoBackend openmpiDep =
      get_dependency_version "GCC" "4.7" gccBackend openmpiDep :=
  get_dependency_version_explicit_version_pure "GCC" "4.7" demoBackend gccBackend
    openmpiDep rfl

/-- C9: `add_dependencies` is not atomic on error: if a prefix of the
input validates and a later dependency fails validation, the call ends
with the raised exception while the validated prefix has already been
appended to the dependency list. -/
theorem add_dependencies_not_atomic
    (tcname tcversion : String) (B : ModuleBackend) (st : List Dependency)
    (l1 procd1 : List Dependency) (bad : Dependency) (rest : List Dependency) (e : String)
    (h1 : List.Forall₂ (fun d d2 => validate_dep tcname tcversion B d = Except.ok d2)
            l1 procd1)
    (h2 : validate_dep tcname tcversion B bad = Except.error e) :
    add_dependencies tcname tcversion B st (l1 ++ bad :: rest) =
      (st ++ procd1, some e) := by
  induction h1 generalizing st with
  | nil =>
    simp only [List.nil_append, add_dependencies, h2, List.append_nil]
  | cons hR hfa ih =>
    simp only [List.cons_append, add_dependencies, hR]
    simp only [List.append_eq]
    rw [ih]
    simp

/-- Witness for C9: the pinned OpenMPI dependency passes, the following
legacy `tk` dependency raises, and the already-validated OpenMPI entry
remains appended. -/
theorem add_dependencies_not_atomic_witness :
    add_dependencies "GCC" "4.7" demoBackend [] ([openmpiDep] ++ legacyDep :: []) =
      ([] ++ [openmpiResolved], some "add_dependencies: legacy tk found in dep") :=
  add_dependencies_not_atomic "GCC" "4.7" demoBackend [] [openmpiDep]
    [openmpiResolved] legacyDep [] "add_dependencies: legacy tk found in dep"
    (List.Forall₂.cons rfl List.Forall₂.nil) rfl

/-- C10: for a dummy-named toolchain with a non-dummy version, `prepare`
loads the registered dependency modules and returns at once: the trace
is exactly the dependency load (no toolchain-module load, no
consistency event, no `set_variables` hook, no `generate_vars`, no
environment write), the state is unchanged and `vars` remains `None`. -/
theorem prepare_dummy_name_loads_deps_only
    (tc : Toolchain) (B : ModuleBackend) (m : OnlyMod)
    (h1 : tc.name = DUMMY_NAME) (h2 : ¬ tc.version = DUMMY_VERSION)
    (h3 : tc.vars = Option.none) :
    prepare tc B m = (tc, [Ev.loadDeps tc.dependencies], Option.none) ∧
    (prepare tc B m).1.vars = Option.none := by
  have hp : prepare tc B m = (tc, [Ev.loadDeps tc.dependencies], Option.none) := by
    simp [prepare, toolchain_exists, h1, h2]
  exact ⟨hp, by rw [hp]; exact h3⟩

/-- Witness for C10 at the concrete dummy-named toolchain with version
1.0. -/
theorem prepare_dummy_name_loads_deps_only_witness :
    prepare dummyVersionedToolchain demoBackend OnlyMod.none =
      (dummyVersionedToolchain,
       [Ev.loadDeps dummyVersionedToolchain.dependencies], Option.none) ∧
    (prepare dummyVersionedToolchain demoBackend OnlyMod.none).1.vars = Option.none :=
  prepare_dummy_name_loads_deps_only dummyVersionedToolchain demoBackend OnlyMod.none
    rfl (by decide) rfl
